import Mathlib

/-!
Shallow embedding of the `/products` aggregation pipeline of the
otel-go-app-sample service: the stage functions `validateRequest`,
`GetAllProducts`, `processData`, the dependent-service simulation
`HandleSlowAPI`, and the orchestrating handler `GetProductsHandler`.

Sources of nondeterminism in the Go code (the two `rand.Float32()` draws,
the database contents and failure modes, and the timestamp printed by the
slow endpoint) are passed in explicitly as input data.  Span lifecycle and
orchestration effects are recorded as an explicit event trace, in the order
the main goroutine performs them: span starts, span `End` invocations,
attribute writes, the spawn of the slow-API goroutine and the receive from
the handoff channel.

Go's nil slice (the `var products []Product` that is only ever grown by
`append`) is modelled as `Option (List Product)`: `none` is the nil slice,
which `encoding/json` serializes as `null`.
-/

/-- A Go slice, tracking nil-ness: `none` is the nil slice. -/
abbrev GoSlice (α : Type) := Option (List α)

/-- Go `append`: appending to a nil slice produces a non-nil slice. -/
def gsAppend {α : Type} : GoSlice α → α → GoSlice α
  | none, a => some [a]
  | some l, a => some (l ++ [a])

/-- Go `len` on a slice: `len(nil) = 0`. -/
def gsLen {α : Type} : GoSlice α → Nat
  | none => 0
  | some l => l.length

/-- The `Product` struct from the `utils` package (the `products` table row).  The
`price float32` field is carried opaquely as an integer code: no code in the
repository computes with prices, it only scans and serializes them. -/
structure Product where
  id : Nat
  name : String
  quantity : Int
  price : Int
deriving Repr, DecidableEq

/-- Events the instrumented code emits, in main-goroutine order: span starts,
span `End` invocations, span attributes, the `go func(){...}` spawn of the
slow-API call, and the `<-slowChan` receive. -/
inductive Ev where
  | spanStart (n : String)
  | spanEnd (n : String)
  | attrStr (k v : String)
  | attrInt (k : String) (v : Nat)
  | spawnSlow
  | recvSlow
deriving Repr, DecidableEq

/-- One cursor row as `rows.Scan` sees it: either a scanned `Product`, or a
row-level scan failure with its error message. -/
inductive RowRead where
  | ok (p : Product)
  | scanFail (e : String)
deriving Repr, DecidableEq

/-- The state of the global `DB *sql.DB` handle and of the query it would
run: whether the handle is nil, whether `QueryContext` errors, the rows the
cursor yields, and whether `rows.Err()` reports a cursor-iteration
failure. -/
structure DbState where
  dbIsNil : Bool
  queryErr : Option String
  rows : List RowRead
  iterErr : Option String
deriving Repr, DecidableEq

/-- The `for rows.Next() { rows.Scan(...) ; products = append(products, p) }`
loop: the first row whose scan fails aborts the loop, and the Go code then
returns the literal `nil` slice together with the raw scan error. -/
def scanRows : List RowRead → GoSlice Product → GoSlice Product × Option String
  | [], acc => (acc, none)
  | RowRead.scanFail e :: _, _ => (none, some e)
  | RowRead.ok p :: rest, acc => scanRows rest (gsAppend acc p)

/-- Result of `GetAllProducts`: the returned slice, the returned error, and
the span events it emitted. -/
structure FetchOut where
  products : GoSlice Product
  err : Option String
  events : List Ev
deriving Repr, DecidableEq

/-- Model of `GetAllProducts(ctx)`.  Note the nil-`DB` branch: it calls `span.End()`
explicitly and then the deferred `span.End()` fires as well, so that branch
records two `End` invocations for the same span. -/
def GetAllProducts (db : DbState) : FetchOut :=
  if db.dbIsNil then
    { products := none
      err := some "database connection not initialized; call InitDB first"
      events := [Ev.spanStart "GetAllProducts",
                 Ev.attrStr "error" "database not initialized",
                 Ev.spanEnd "GetAllProducts", Ev.spanEnd "GetAllProducts"] }
  else
    match db.queryErr with
    | some e =>
      { products := none
        err := some ("error querying products: " ++ e)
        events := [Ev.spanStart "GetAllProducts", Ev.attrStr "error" e,
                   Ev.spanEnd "GetAllProducts"] }
    | none =>
      match scanRows db.rows none with
      | (_, some e) =>
        { products := none
          err := some ("error scanning product row: " ++ e)
          events := [Ev.spanStart "GetAllProducts", Ev.attrStr "error" e,
                     Ev.spanEnd "GetAllProducts"] }
      | (ps, none) =>
        match db.iterErr with
        | some e =>
          { products := none
            err := some ("error iterating over product rows: " ++ e)
            events := [Ev.spanStart "GetAllProducts", Ev.attrStr "error" e,
                       Ev.spanEnd "GetAllProducts"] }
        | none =>
          { products := ps
            err := none
            events := [Ev.spanStart "GetAllProducts",
                       Ev.attrInt "product_count" (gsLen ps),
                       Ev.spanEnd "GetAllProducts"] }

/-- Model of `validateRequest(ctx)`: `draw` is the outcome of `rand.Float32() < 0.2`. -/
def validateRequest (draw : Bool) : Option String × List Ev :=
  if draw then
    (some "request validation failed",
     [Ev.spanStart "validateRequest", Ev.attrStr "error" "validation failed",
      Ev.spanEnd "validateRequest"])
  else
    (none, [Ev.spanStart "validateRequest", Ev.spanEnd "validateRequest"])

/-- Model of `processData(ctx, products)`: `draw` is the outcome of
`rand.Float32() < 0.3`. -/
def processData (draw : Bool) (products : GoSlice Product) :
    String × Option String × List Ev :=
  if draw then
    ("failed", some "data processing failed",
     [Ev.spanStart "processData", Ev.attrStr "error" "processing failed",
      Ev.spanEnd "processData"])
  else
    ("success", none,
     [Ev.spanStart "processData", Ev.attrInt "processed_count" (gsLen products),
      Ev.spanEnd "processData"])

/-- What `HandleSlowAPI` leaves in the `httptest` recorder: status and body. -/
structure SlowResult where
  status : Nat
  msg : String
deriving Repr, DecidableEq

/-- Model of `HandleSlowAPI(w, r)`: sleeps, then writes status 200 and the
timestamped body. -/
def HandleSlowAPI (timestamp : String) : SlowResult :=
  { status := 200, msg := "Slow API response at " ++ timestamp ++ "\n" }

/-- Capacity of `slowChan := make(chan slowResult)`: a `make(chan T)` with no
capacity argument is unbuffered. -/
def slowChanCapacity : Nat := 0

/-- Fate of the slow-API goroutine after the handler returns or responds. -/
inductive SlowGoroutineFate where
  | delivered
  | completedDropped
  | blockedOnSend
deriving Repr, DecidableEq

/-- What happens to a goroutine sending on a channel of the given capacity
when no receiver will ever arrive: a buffered channel absorbs the send and
the value is dropped; an unbuffered send blocks forever. -/
def abandonedSendFate (capacity : Nat) : SlowGoroutineFate :=
  if capacity > 0 then SlowGoroutineFate.completedDropped
  else SlowGoroutineFate.blockedOnSend

/-- JSON values, as produced by `encoding/json`. -/
inductive Json where
  | null
  | str (s : String)
  | num (n : Int)
  | arr (xs : List Json)
  | obj (fields : List (String × Json))

/-- JSON encoding of one `Product` in its struct-tag field order. -/
def encodeProduct (p : Product) : Json :=
  Json.obj [("id", Json.num p.id), ("name", Json.str p.name),
            ("quantity", Json.num p.quantity), ("price", Json.num p.price)]

/-- Behaviour of `encoding/json` on a `[]Product`: a nil slice serializes as `null`,
a non-nil slice as an array. -/
def encodeProducts : GoSlice Product → Json
  | none => Json.null
  | some l => Json.arr (l.map encodeProduct)

/-- The `Response` struct assembled by the handler. -/
structure Response where
  products : GoSlice Product
  slowStatus : Nat
  slowMessage : String
  processStatus : String

/-- JSON encoding of `Response` in its struct-tag field order. -/
def encodeResponse (r : Response) : Json :=
  Json.obj [("products", encodeProducts r.products),
            ("slow_status", Json.num r.slowStatus),
            ("slow_message", Json.str r.slowMessage),
            ("process_status", Json.str r.processStatus)]

/-- Field lookup in a JSON object. -/
def jsonField (j : Json) (k : String) : Option Json :=
  match j with
  | Json.obj fs => fs.lookup k
  | _ => none

/-- Length of a JSON array (0 on any non-array). -/
def jsonArrayLen : Json → Nat
  | Json.arr xs => xs.length
  | _ => 0

/-- An HTTP response body: either the plain-text body written by
`http.Error`, or the JSON document written by `json.NewEncoder(w).Encode`.
The constructors are disjoint: an error body carries no `products` field. -/
inductive Body where
  | errorText (s : String)
  | jsonBody (j : Json)

/-- The explicit inputs of one `GetProductsHandler` execution: the two
random draws, the database state, and the timestamp the slow endpoint
stamps into its body. -/
structure HandlerInput where
  validateDraw : Bool
  processDraw : Bool
  db : DbState
  slowTimestamp : String

/-- Observable outcome of one `GetProductsHandler` execution: HTTP status,
body, the main-goroutine event trace, and the fate of the spawned slow-API
goroutine (`none` when it was never spawned). -/
structure HandlerOutput where
  status : Nat
  body : Body
  events : List Ev
  slowFate : Option SlowGoroutineFate

/-- Model of `GetProductsHandler(w, r)`.  Note `http.Error(w, msg, code)` writes
`msg ++ "\n"`.  On the processing-failure path the handler returns without
receiving from `slowChan`; the spawned goroutine finishes `HandleSlowAPI`
and then attempts the send, whose fate is `abandonedSendFate` of the
channel's capacity. -/
def GetProductsHandler (inp : HandlerInput) : HandlerOutput :=
  let (verr, vevs) := validateRequest inp.validateDraw
  let evs0 := Ev.spanStart "GetProductsHandler" :: vevs
  match verr with
  | some e =>
    { status := 400
      body := Body.errorText (e ++ "\n")
      events := evs0 ++ [Ev.attrStr "error" e, Ev.spanEnd "GetProductsHandler"]
      slowFate := none }
  | none =>
    let f := GetAllProducts inp.db
    let evs1 := evs0 ++ f.events
    match f.err with
    | some e =>
      { status := 500
        body := Body.errorText ("Failed to fetch products: " ++ e ++ "\n")
        events := evs1 ++ [Ev.attrStr "error" e, Ev.spanEnd "GetProductsHandler"]
        slowFate := none }
    | none =>
      let slow := HandleSlowAPI inp.slowTimestamp
      let evs2 := evs1 ++ [Ev.spawnSlow]
      let (pstatus, perr, pevs) := processData inp.processDraw f.products
      let evs3 := evs2 ++ pevs
      match perr with
      | some e =>
        { status := 500
          body := Body.errorText ("Failed to process data: " ++ e ++ "\n")
          events := evs3 ++ [Ev.attrStr "error" e, Ev.spanEnd "GetProductsHandler"]
          slowFate := some (abandonedSendFate slowChanCapacity) }
      | none =>
        let resp : Response :=
          { products := f.products, slowStatus := slow.status
            slowMessage := slow.msg, processStatus := pstatus }
        { status := 200
          body := Body.jsonBody (encodeResponse resp)
          events := evs3 ++ [Ev.recvSlow, Ev.spanEnd "GetProductsHandler"]
          slowFate := some SlowGoroutineFate.delivered }

/-- Holds (as `true`) exactly when `GetAllProducts` would succeed on this state. -/
def fetchOk (db : DbState) : Bool :=
  !db.dbIsNil && db.queryErr.isNone && (scanRows db.rows none).2.isNone
    && db.iterErr.isNone

/-- Does the event match `span.End()` of the named span? -/
def isSpanEnd (n : String) : Ev → Bool
  | Ev.spanEnd m => m == n
  | _ => false

/-- Does the event match starting the named span? -/
def isSpanStart (n : String) : Ev → Bool
  | Ev.spanStart m => m == n
  | _ => false

/-- Number of `span.End()` invocations of the named span in a trace. -/
def countEnd (n : String) : List Ev → Nat
  | [] => 0
  | e :: rest => (if isSpanEnd n e then 1 else 0) + countEnd n rest

/-- Number of starts of the named span in a trace. -/
def countStart (n : String) : List Ev → Nat
  | [] => 0
  | e :: rest => (if isSpanStart n e then 1 else 0) + countStart n rest

/-- The string `needle` occurs as a contiguous substring of `hay`. -/
def containsSubstr (needle hay : String) : Prop :=
  ∃ pre post, hay = pre ++ needle ++ post

/-! ### Branch characterizations of the embedded functions -/

lemma fetch_err_iff (db : DbState) :
    (GetAllProducts db).err = none ↔ fetchOk db = true := by
  rcases hsc : scanRows db.rows none with ⟨ps, sce⟩
  by_cases hd : db.dbIsNil <;>
    cases hq : db.queryErr <;>
      cases hi : db.iterErr <;>
        cases sce <;>
          simp [GetAllProducts, fetchOk, hd, hq, hi, hsc]

lemma fetch_ok_out (db : DbState) (h : fetchOk db = true) :
    GetAllProducts db =
      { products := (scanRows db.rows none).1
        err := none
        events := [Ev.spanStart "GetAllProducts",
                   Ev.attrInt "product_count" (gsLen (scanRows db.rows none).1),
                   Ev.spanEnd "GetAllProducts"] } := by
  simp only [fetchOk, Bool.and_eq_true, Bool.not_eq_true', Option.isNone_iff_eq_none] at h
  obtain ⟨⟨⟨h1, h2⟩, h3⟩, h4⟩ := h
  rcases hsc : scanRows db.rows none with ⟨ps, sce⟩
  rw [hsc] at h3; simp at h3; subst h3
  simp [GetAllProducts, h1, h2, h4, hsc]

lemma handler_validateFail (inp : HandlerInput) (hv : inp.validateDraw = true) :
    GetProductsHandler inp =
      { status := 400
        body := Body.errorText ("request validation failed" ++ "\n")
        events := [Ev.spanStart "GetProductsHandler", Ev.spanStart "validateRequest",
                   Ev.attrStr "error" "validation failed", Ev.spanEnd "validateRequest",
                   Ev.attrStr "error" "request validation failed",
                   Ev.spanEnd "GetProductsHandler"]
        slowFate := none } := by
  simp [GetProductsHandler, validateRequest, hv]

lemma handler_fetchFail (inp : HandlerInput) (e : String)
    (hv : inp.validateDraw = false) (hf : (GetAllProducts inp.db).err = some e) :
    GetProductsHandler inp =
      { status := 500
        body := Body.errorText ("Failed to fetch products: " ++ e ++ "\n")
        events := [Ev.spanStart "GetProductsHandler", Ev.spanStart "validateRequest",
                   Ev.spanEnd "validateRequest"] ++ (GetAllProducts inp.db).events
                  ++ [Ev.attrStr "error" e, Ev.spanEnd "GetProductsHandler"]
        slowFate := none } := by
  simp [GetProductsHandler, validateRequest, hv, hf]

lemma handler_processFail (inp : HandlerInput)
    (hv : inp.validateDraw = false) (hf : (GetAllProducts inp.db).err = none)
    (hp : inp.processDraw = true) :
    GetProductsHandler inp =
      { status := 500
        body := Body.errorText ("Failed to process data: data processing failed" ++ "\n")
        events := [Ev.spanStart "GetProductsHandler", Ev.spanStart "validateRequest",
                   Ev.spanEnd "validateRequest"] ++ (GetAllProducts inp.db).events
                  ++ [Ev.spawnSlow, Ev.spanStart "processData",
                      Ev.attrStr "error" "processing failed", Ev.spanEnd "processData",
                      Ev.attrStr "error" "data processing failed",
                      Ev.spanEnd "GetProductsHandler"]
        slowFate := some (abandonedSendFate slowChanCapacity) } := by
  simp [GetProductsHandler, validateRequest, processData, hv, hf, hp]

lemma handler_success (inp : HandlerInput)
    (hv : inp.validateDraw = false) (hf : (GetAllProducts inp.db).err = none)
    (hp : inp.processDraw = false) :
    GetProductsHandler inp =
      { status := 200
        body := Body.jsonBody (encodeResponse
          { products := (GetAllProducts inp.db).products
            slowStatus := 200
            slowMessage := "Slow API response at " ++ inp.slowTimestamp ++ "\n"
            processStatus := "success" })
        events := [Ev.spanStart "GetProductsHandler", Ev.spanStart "validateRequest",
                   Ev.spanEnd "validateRequest"] ++ (GetAllProducts inp.db).events
                  ++ [Ev.spawnSlow, Ev.spanStart "processData",
                      Ev.attrInt "processed_count" (gsLen (GetAllProducts inp.db).products),
                      Ev.spanEnd "processData", Ev.recvSlow,
                      Ev.spanEnd "GetProductsHandler"]
        slowFate := some SlowGoroutineFate.delivered } := by
  simp [GetProductsHandler, validateRequest, processData, HandleSlowAPI, hv, hf, hp]

/-! ### Field lookups on the encoded response, and concrete inputs -/

lemma jsonField_products (r : Response) :
    jsonField (encodeResponse r) "products" = some (encodeProducts r.products) := rfl

lemma jsonField_slow_status (r : Response) :
    jsonField (encodeResponse r) "slow_status" = some (Json.num r.slowStatus) := rfl

lemma jsonField_slow_message (r : Response) :
    jsonField (encodeResponse r) "slow_message" = some (Json.str r.slowMessage) := rfl

lemma jsonField_process_status (r : Response) :
    jsonField (encodeResponse r) "process_status" = some (Json.str r.processStatus) := rfl

lemma jsonArrayLen_encodeProducts (ps : GoSlice Product) :
    jsonArrayLen (encodeProducts ps) = gsLen ps := by
  cases ps <;> simp [encodeProducts, jsonArrayLen, gsLen]

lemma scanRows_fails_of_mem {e : String} :
    ∀ (rows : List RowRead) (acc : GoSlice Product), RowRead.scanFail e ∈ rows →
      (scanRows rows acc).2 ≠ none
  | [], _, h => absurd h (List.not_mem_nil _)
  | RowRead.scanFail _ :: _, _, _ => by simp [scanRows]
  | RowRead.ok p :: rest, acc, h => by
      have h2 : RowRead.scanFail e ∈ rest := by
        rcases List.mem_cons.mp h with h1 | h2
        · exact absurd h1 (fun hh => RowRead.noConfusion hh)
        · exact h2
      simpa [scanRows] using scanRows_fails_of_mem rest (gsAppend acc p) h2

/-- A database state with two well-scanning rows and no failure anywhere. -/
def twoRowsDb : DbState :=
  { dbIsNil := false, queryErr := none
    rows := [RowRead.ok { id := 1, name := "apple", quantity := 3, price := 5 },
             RowRead.ok { id := 2, name := "pear", quantity := 7, price := 9 }]
    iterErr := none }

/-- Both draws succeed, two rows fetched. -/
def allOkInput : HandlerInput :=
  { validateDraw := false, processDraw := false, db := twoRowsDb, slowTimestamp := "T0" }

/-- The validation draw fails. -/
def validateFailInput : HandlerInput :=
  { validateDraw := true, processDraw := false, db := twoRowsDb, slowTimestamp := "T0" }

/-- The global `DB` handle is nil (the store was never initialized). -/
def uninitInput : HandlerInput :=
  { validateDraw := false, processDraw := false
    db := { dbIsNil := true, queryErr := none, rows := [], iterErr := none }
    slowTimestamp := "T0" }

/-- The processing draw fails while everything before it succeeds. -/
def processFailInput : HandlerInput :=
  { validateDraw := false, processDraw := true, db := twoRowsDb, slowTimestamp := "T0" }

/-- A healthy database whose `products` table holds zero rows. -/
def emptyDbInput : HandlerInput :=
  { validateDraw := false, processDraw := false
    db := { dbIsNil := false, queryErr := none, rows := [], iterErr := none }
    slowTimestamp := "T0" }

/-- A database state whose single row fails to scan. -/
def badScanDb : DbState :=
  { dbIsNil := false, queryErr := none, rows := [RowRead.scanFail "boom"], iterErr := none }

/-! ### The claims -/

/-- C1: every aggregation-handler request that completes with HTTP 200 has a
JSON body whose `products` field has as many elements as the store fetch
returned records, and whose `process_status` field is `"success"` exactly
when `processData` returned no error and `"failed"` exactly when it
returned one; moreover on the concrete all-stages-succeed run with a
two-row fetch the response is 200 with `products` of length 2,
`process_status` `"success"` and `slow_status` 200. -/
theorem c1_success_response_contract :
    (∀ inp : HandlerInput, (GetProductsHandler inp).status = 200 →
      ∃ j, (GetProductsHandler inp).body = Body.jsonBody j
        ∧ (jsonField j "products").map jsonArrayLen
            = some (gsLen (GetAllProducts inp.db).products)
        ∧ (jsonField j "process_status" = some (Json.str "success")
            ↔ (processData inp.processDraw (GetAllProducts inp.db).products).2.1 = none)
        ∧ (jsonField j "process_status" = some (Json.str "failed")
            ↔ (processData inp.processDraw (GetAllProducts inp.db).products).2.1 ≠ none))
    ∧ ((GetProductsHandler allOkInput).status = 200
       ∧ ∃ j, (GetProductsHandler allOkInput).body = Body.jsonBody j
          ∧ (jsonField j "products").map jsonArrayLen = some 2
          ∧ jsonField j "process_status" = some (Json.str "success")
          ∧ jsonField j "slow_status" = some (Json.num 200)) := by
  constructor
  · intro inp h
    by_cases hv : inp.validateDraw
    · rw [handler_validateFail inp hv] at h
      exact absurd h (by decide)
    · have hv2 : inp.validateDraw = false := by simpa using hv
      cases hf : (GetAllProducts inp.db).err with
      | some e =>
        rw [handler_fetchFail inp e hv2 hf] at h
        simp at h
      | none =>
        by_cases hp : inp.processDraw
        · rw [handler_processFail inp hv2 hf hp] at h
          simp at h
        · have hp2 : inp.processDraw = false := by simpa using hp
          rw [handler_success inp hv2 hf hp2]
          refine ⟨_, rfl, ?_, ?_, ?_⟩
          · simp [jsonField_products, jsonArrayLen_encodeProducts]
          · simp [jsonField_process_status, processData, hp2]
          · simp [jsonField_process_status, processData, hp2]
  · refine ⟨rfl, _, rfl, rfl, rfl, rfl⟩

/-- C1 witness: the universal part applied at the all-success input. -/
theorem c1_witness :
    ∃ j, (GetProductsHandler allOkInput).body = Body.jsonBody j
      ∧ (jsonField j "products").map jsonArrayLen
          = some (gsLen (GetAllProducts allOkInput.db).products)
      ∧ (jsonField j "process_status" = some (Json.str "success")
          ↔ (processData allOkInput.processDraw
              (GetAllProducts allOkInput.db).products).2.1 = none)
      ∧ (jsonField j "process_status" = some (Json.str "failed")
          ↔ (processData allOkInput.processDraw
              (GetAllProducts allOkInput.db).products).2.1 ≠ none) :=
  c1_success_response_contract.1 allOkInput rfl

/-- C2: a request whose validation draw fails is answered with HTTP 400, a
plain-text body containing the validation error message, and the store
fetch is never started (zero `GetAllProducts` span starts in the trace). -/
theorem c2_validation_rejects_before_fetch (inp : HandlerInput)
    (hv : inp.validateDraw = true) :
    (GetProductsHandler inp).status = 400
    ∧ (∃ s, (GetProductsHandler inp).body = Body.errorText s
        ∧ containsSubstr "request validation failed" s)
    ∧ countStart "GetAllProducts" (GetProductsHandler inp).events = 0 := by
  rw [handler_validateFail inp hv]
  refine ⟨rfl, ⟨"request validation failed" ++ "\n", rfl, "", "\n", by decide⟩, by decide⟩

/-- C2 witness at the forced-failing-validation input. -/
theorem c2_witness :
    (GetProductsHandler validateFailInput).status = 400
    ∧ (∃ s, (GetProductsHandler validateFailInput).body = Body.errorText s
        ∧ containsSubstr "request validation failed" s)
    ∧ countStart "GetAllProducts" (GetProductsHandler validateFailInput).events = 0 :=
  c2_validation_rejects_before_fetch validateFailInput rfl

/-- C3: whenever the store fetch errors, or the fetch succeeds and the
processing stage errors, the handler answers HTTP 500 with a plain-text
error body; the body is never a JSON document, so it cannot carry a
populated `products` field mixed with the error text. -/
theorem c3_failures_yield_500_error_body (inp : HandlerInput)
    (hv : inp.validateDraw = false)
    (h : (GetAllProducts inp.db).err ≠ none
         ∨ ((GetAllProducts inp.db).err = none ∧ inp.processDraw = true)) :
    (GetProductsHandler inp).status = 500
    ∧ (∃ s, (GetProductsHandler inp).body = Body.errorText s)
    ∧ ∀ j, (GetProductsHandler inp).body ≠ Body.jsonBody j := by
  rcases h with h | ⟨hf, hp⟩
  · cases he : (GetAllProducts inp.db).err with
    | none => exact absurd he h
    | some e =>
      rw [handler_fetchFail inp e hv he]
      exact ⟨rfl, ⟨_, rfl⟩, fun j hj => Body.noConfusion hj⟩
  · rw [handler_processFail inp hv hf hp]
    exact ⟨rfl, ⟨_, rfl⟩, fun j hj => Body.noConfusion hj⟩

/-- C3 witness at the uninitialized-store input (a fetch failure). -/
theorem c3_witness :
    (GetProductsHandler uninitInput).status = 500
    ∧ (∃ s, (GetProductsHandler uninitInput).body = Body.errorText s)
    ∧ ∀ j, (GetProductsHandler uninitInput).body ≠ Body.jsonBody j :=
  c3_failures_yield_500_error_body uninitInput rfl (Or.inl (by decide))

/-- C4: on every request that reaches response assembly, the `slow_status`
and `slow_message` fields of the serialized response are exactly the status
and body that `HandleSlowAPI` produced for that request. -/
theorem c4_slow_result_roundtrip (inp : HandlerInput)
    (hv : inp.validateDraw = false) (hf : (GetAllProducts inp.db).err = none)
    (hp : inp.processDraw = false) :
    ∃ j, (GetProductsHandler inp).body = Body.jsonBody j
      ∧ jsonField j "slow_status"
          = some (Json.num ((HandleSlowAPI inp.slowTimestamp).status : Int))
      ∧ jsonField j "slow_message"
          = some (Json.str (HandleSlowAPI inp.slowTimestamp).msg) := by
  rw [handler_success inp hv hf hp]
  exact ⟨_, rfl,
    by simp [jsonField_slow_status, HandleSlowAPI],
    by simp [jsonField_slow_message, HandleSlowAPI]⟩

/-- C4 witness at the all-success two-row input. -/
theorem c4_witness :
    ∃ j, (GetProductsHandler allOkInput).body = Body.jsonBody j
      ∧ jsonField j "slow_status"
          = some (Json.num ((HandleSlowAPI allOkInput.slowTimestamp).status : Int))
      ∧ jsonField j "slow_message"
          = some (Json.str (HandleSlowAPI allOkInput.slowTimestamp).msg) :=
  c4_slow_result_roundtrip allOkInput rfl (by decide) rfl

/-- C5 counterexample: on the uninitialized-store branch of the fetch, the
`GetAllProducts` span is started once but its `End` is invoked twice (the
explicit `span.End()` before the early return, and the deferred one), so
the stage span is not closed exactly once on that path. -/
theorem c5_counterexample :
    countStart "GetAllProducts" (GetProductsHandler uninitInput).events = 1
    ∧ countEnd "GetAllProducts" (GetProductsHandler uninitInput).events = 2
    ∧ ¬ countEnd "GetAllProducts" (GetProductsHandler uninitInput).events = 1 := by
  decide

/-- C5 amended: on every path, every stage span that is started is ended at
least once before the handler span ends (the handler `End` is the last
event and occurs once); the `End` of each stage span is invoked exactly
once, except on the uninitialized-store branch of the fetch, where the
`GetAllProducts` span has its `End` invoked twice. -/
theorem c5_amended_span_end_counts (inp : HandlerInput) :
    countStart "GetProductsHandler" (GetProductsHandler inp).events = 1
    ∧ countEnd "GetProductsHandler" (GetProductsHandler inp).events = 1
    ∧ (GetProductsHandler inp).events.getLast? = some (Ev.spanEnd "GetProductsHandler")
    ∧ countStart "validateRequest" (GetProductsHandler inp).events = 1
    ∧ countEnd "validateRequest" (GetProductsHandler inp).events = 1
    ∧ countStart "GetAllProducts" (GetProductsHandler inp).events
        = (if inp.validateDraw then 0 else 1)
    ∧ countEnd "GetAllProducts" (GetProductsHandler inp).events
        = (if inp.validateDraw then 0 else if inp.db.dbIsNil then 2 else 1)
    ∧ countStart "processData" (GetProductsHandler inp).events
        = (if !inp.validateDraw && fetchOk inp.db then 1 else 0)
    ∧ countEnd "processData" (GetProductsHandler inp).events
        = (if !inp.validateDraw && fetchOk inp.db then 1 else 0) := by
  cases hv : inp.validateDraw with
  | true =>
    rw [handler_validateFail inp hv]
    simp only [hv]
    exact ⟨rfl, rfl, rfl, rfl, rfl, rfl, rfl, rfl, rfl⟩
  | false =>
    cases hd : inp.db.dbIsNil with
    | true =>
      have hf : (GetAllProducts inp.db).err
          = some "database connection not initialized; call InitDB first" := by
        simp [GetAllProducts, hd]
      have hev : (GetAllProducts inp.db).events
          = [Ev.spanStart "GetAllProducts",
             Ev.attrStr "error" "database not initialized",
             Ev.spanEnd "GetAllProducts", Ev.spanEnd "GetAllProducts"] := by
        simp [GetAllProducts, hd]
      have hfo : fetchOk inp.db = false := by simp [fetchOk, hd]
      rw [handler_fetchFail inp _ hv hf, hev]
      simp only [hv, hd, hfo]
      exact ⟨rfl, rfl, rfl, rfl, rfl, rfl, rfl, rfl, rfl⟩
    | false =>
      cases hq : inp.db.queryErr with
      | some e =>
        have hf : (GetAllProducts inp.db).err
            = some ("error querying products: " ++ e) := by
          simp [GetAllProducts, hd, hq]
        have hev : (GetAllProducts inp.db).events
            = [Ev.spanStart "GetAllProducts", Ev.attrStr "error" e,
               Ev.spanEnd "GetAllProducts"] := by
          simp [GetAllProducts, hd, hq]
        have hfo : fetchOk inp.db = false := by simp [fetchOk, hq]
        rw [handler_fetchFail inp _ hv hf, hev]
        simp only [hv, hd, hfo]
        exact ⟨rfl, rfl, rfl, rfl, rfl, rfl, rfl, rfl, rfl⟩
      | none =>
        rcases hsc : scanRows inp.db.rows none with ⟨ps, sce⟩
        cases sce with
        | some e =>
          have hf : (GetAllProducts inp.db).err
              = some ("error scanning product row: " ++ e) := by
            simp [GetAllProducts, hd, hq, hsc]
          have hev : (GetAllProducts inp.db).events
              = [Ev.spanStart "GetAllProducts", Ev.attrStr "error" e,
                 Ev.spanEnd "GetAllProducts"] := by
            simp [GetAllProducts, hd, hq, hsc]
          have hfo : fetchOk inp.db = false := by simp [fetchOk, hsc]
          rw [handler_fetchFail inp _ hv hf, hev]
          simp only [hv, hd, hfo]
          exact ⟨rfl, rfl, rfl, rfl, rfl, rfl, rfl, rfl, rfl⟩
        | none =>
          cases hi : inp.db.iterErr with
          | some e =>
            have hf : (GetAllProducts inp.db).err
                = some ("error iterating over product rows: " ++ e) := by
              simp [GetAllProducts, hd, hq, hsc, hi]
            have hev : (GetAllProducts inp.db).events
                = [Ev.spanStart "GetAllProducts", Ev.attrStr "error" e,
                   Ev.spanEnd "GetAllProducts"] := by
              simp [GetAllProducts, hd, hq, hsc, hi]
            have hfo : fetchOk inp.db = false := by simp [fetchOk, hi]
            rw [handler_fetchFail inp _ hv hf, hev]
            simp only [hv, hd, hfo]
            exact ⟨rfl, rfl, rfl, rfl, rfl, rfl, rfl, rfl, rfl⟩
          | none =>
            have hfo : fetchOk inp.db = true := by simp [fetchOk, hd, hq, hsc, hi]
            have hf : (GetAllProducts inp.db).err = none := (fetch_err_iff inp.db).mpr hfo
            cases hp : inp.processDraw with
            | true =>
              rw [handler_processFail inp hv hf hp, fetch_ok_out inp.db hfo]
              simp only [hv, hd, hfo]
              exact ⟨rfl, rfl, rfl, rfl, rfl, rfl, rfl, rfl, rfl⟩
            | false =>
              rw [handler_success inp hv hf hp, fetch_ok_out inp.db hfo]
              simp only [hv, hd, hfo]
              exact ⟨rfl, rfl, rfl, rfl, rfl, rfl, rfl, rfl, rfl⟩

/-- C6: calling the store fetch with the global `DB` handle still nil
returns a not-initialized error value (the model is a total function, so
this path is an ordinary return, not a panic), and the handler then
answers HTTP 500 with a body containing
`"database connection not initialized"`. -/
theorem c6_uninitialized_store (inp : HandlerInput)
    (hv : inp.validateDraw = false) (hd : inp.db.dbIsNil = true) :
    (GetAllProducts inp.db).err
        = some "database connection not initialized; call InitDB first"
    ∧ (GetAllProducts inp.db).products = none
    ∧ (GetProductsHandler inp).status = 500
    ∧ ∃ s, (GetProductsHandler inp).body = Body.errorText s
        ∧ containsSubstr "database connection not initialized" s := by
  have hf : (GetAllProducts inp.db).err
      = some "database connection not initialized; call InitDB first" := by
    simp [GetAllProducts, hd]
  refine ⟨hf, by simp [GetAllProducts, hd], ?_, ?_⟩
  · rw [handler_fetchFail inp _ hv hf]
  · rw [handler_fetchFail inp _ hv hf]
    exact ⟨_, rfl, "Failed to fetch products: ", "; call InitDB first" ++ "\n", by decide⟩

/-- C6 witness at the uninitialized-store input. -/
theorem c6_witness :
    (GetAllProducts uninitInput.db).err
        = some "database connection not initialized; call InitDB first"
    ∧ (GetAllProducts uninitInput.db).products = none
    ∧ (GetProductsHandler uninitInput).status = 500
    ∧ ∃ s, (GetProductsHandler uninitInput).body = Body.errorText s
        ∧ containsSubstr "database connection not initialized" s :=
  c6_uninitialized_store uninitInput rfl rfl

/-- C7: once the query has started (handle non-nil, no query error), any
row-level scan failure or cursor-iteration failure makes the fetch return
an error together with the nil slice — never a partial prefix of the rows
scanned so far; and on success the fetch annotates its span with the count
of records fetched. -/
theorem c7_no_partial_results (db : DbState)
    (hd : db.dbIsNil = false) (hq : db.queryErr = none) :
    (((∃ e, RowRead.scanFail e ∈ db.rows) ∨ db.iterErr ≠ none) →
      (GetAllProducts db).err ≠ none ∧ (GetAllProducts db).products = none)
    ∧ ((GetAllProducts db).err = none →
      (GetAllProducts db).events
        = [Ev.spanStart "GetAllProducts",
           Ev.attrInt "product_count" (gsLen (GetAllProducts db).products),
           Ev.spanEnd "GetAllProducts"]) := by
  constructor
  · rintro (⟨e, hm⟩ | hi)
    · have hno := scanRows_fails_of_mem db.rows none hm
      rcases hsc : scanRows db.rows none with ⟨ps, sce⟩
      cases sce with
      | none => rw [hsc] at hno; simp at hno
      | some e2 => simp [GetAllProducts, hd, hq, hsc]
    · rcases hsc : scanRows db.rows none with ⟨ps, sce⟩
      cases sce with
      | some e2 => simp [GetAllProducts, hd, hq, hsc]
      | none =>
        cases hi2 : db.iterErr with
        | none => exact absurd hi2 hi
        | some e2 => simp [GetAllProducts, hd, hq, hsc, hi2]
  · intro hf
    have hok : fetchOk db = true := (fetch_err_iff db).mp hf
    rw [fetch_ok_out db hok]

/-- C7 witness: a failing scan on a one-row table aborts the whole fetch. -/
theorem c7_witness :
    (GetAllProducts badScanDb).err ≠ none
    ∧ (GetAllProducts badScanDb).products = none :=
  (c7_no_partial_results badScanDb rfl rfl).1 (Or.inl ⟨"boom", by decide⟩)

/-- C8: on every run in which validation and the fetch succeed, the
main-goroutine trace is exactly: handler span start, the whole validation
stage, the whole fetch stage, the spawn of the slow-API goroutine
immediately followed by the start of `processData`, and then — only when
processing succeeded — the receive from the handoff channel after the
`processData` span has ended; the receive never happens when processing
failed.  The fetch span therefore ends before the spawn and before
`processData` starts, the spawn and the processing start are adjacent, and
the handler blocks on processing before it blocks on the channel. -/
theorem c8_orchestration_order (inp : HandlerInput)
    (hv : inp.validateDraw = false) (hok : fetchOk inp.db = true) :
    (GetProductsHandler inp).events
      = [Ev.spanStart "GetProductsHandler", Ev.spanStart "validateRequest",
         Ev.spanEnd "validateRequest", Ev.spanStart "GetAllProducts",
         Ev.attrInt "product_count" (gsLen (GetAllProducts inp.db).products),
         Ev.spanEnd "GetAllProducts", Ev.spawnSlow, Ev.spanStart "processData"]
        ++ (if inp.processDraw then
              [Ev.attrStr "error" "processing failed", Ev.spanEnd "processData",
               Ev.attrStr "error" "data processing failed",
               Ev.spanEnd "GetProductsHandler"]
            else
              [Ev.attrInt "processed_count" (gsLen (GetAllProducts inp.db).products),
               Ev.spanEnd "processData", Ev.recvSlow,
               Ev.spanEnd "GetProductsHandler"])
    ∧ (inp.processDraw = false → Ev.recvSlow ∈ (GetProductsHandler inp).events)
    ∧ (inp.processDraw = true → Ev.recvSlow ∉ (GetProductsHandler inp).events) := by
  have hf : (GetAllProducts inp.db).err = none := (fetch_err_iff inp.db).mpr hok
  cases hp : inp.processDraw with
  | true =>
    rw [handler_processFail inp hv hf hp, fetch_ok_out inp.db hok]
    refine ⟨by simp, by simp [hp], fun _ => by simp⟩
  | false =>
    rw [handler_success inp hv hf hp, fetch_ok_out inp.db hok]
    refine ⟨by simp, fun _ => by simp, by simp [hp]⟩

/-- C8 witness at the all-success two-row input. -/
theorem c8_witness :
    (GetProductsHandler allOkInput).events
      = [Ev.spanStart "GetProductsHandler", Ev.spanStart "validateRequest",
         Ev.spanEnd "validateRequest", Ev.spanStart "GetAllProducts",
         Ev.attrInt "product_count" (gsLen (GetAllProducts allOkInput.db).products),
         Ev.spanEnd "GetAllProducts", Ev.spawnSlow, Ev.spanStart "processData"]
        ++ (if allOkInput.processDraw then
              [Ev.attrStr "error" "processing failed", Ev.spanEnd "processData",
               Ev.attrStr "error" "data processing failed",
               Ev.spanEnd "GetProductsHandler"]
            else
              [Ev.attrInt "processed_count"
                 (gsLen (GetAllProducts allOkInput.db).products),
               Ev.spanEnd "processData", Ev.recvSlow,
               Ev.spanEnd "GetProductsHandler"])
    ∧ (allOkInput.processDraw = false
        → Ev.recvSlow ∈ (GetProductsHandler allOkInput).events)
    ∧ (allOkInput.processDraw = true
        → Ev.recvSlow ∉ (GetProductsHandler allOkInput).events) :=
  c8_orchestration_order allOkInput rfl (by decide)

/-- C9 counterexample: when processing fails first, the abandoned slow-API
goroutine does not complete with its result silently dropped — because
`slowChan` is created by `make(chan slowResult)` with no capacity, the
goroutine finishes `HandleSlowAPI` and then blocks forever on the send,
since the handler has returned and no receiver will ever arrive. -/
theorem c9_counterexample :
    (GetProductsHandler processFailInput).slowFate
        = some SlowGoroutineFate.blockedOnSend
    ∧ ¬ (GetProductsHandler processFailInput).slowFate
        = some SlowGoroutineFate.completedDropped := by
  decide

/-- C9 amended: when the processing stage fails while the dependent call is
still in flight, the abandoned goroutine runs `HandleSlowAPI` to completion
but then remains blocked forever attempting to hand its result over the
zero-capacity handoff channel; the result is never delivered anywhere. -/
theorem c9_amended_abandoned_goroutine_blocks (inp : HandlerInput)
    (hv : inp.validateDraw = false) (hok : fetchOk inp.db = true)
    (hp : inp.processDraw = true) :
    slowChanCapacity = 0
    ∧ (GetProductsHandler inp).slowFate = some (abandonedSendFate slowChanCapacity)
    ∧ (GetProductsHandler inp).slowFate = some SlowGoroutineFate.blockedOnSend
    ∧ (GetProductsHandler inp).status = 500 := by
  have hf : (GetAllProducts inp.db).err = none := (fetch_err_iff inp.db).mpr hok
  rw [handler_processFail inp hv hf hp]
  exact ⟨rfl, rfl, rfl, rfl⟩

/-- C9 amended-theorem witness at the failing-processing input. -/
theorem c9_witness :
    slowChanCapacity = 0
    ∧ (GetProductsHandler processFailInput).slowFate
        = some (abandonedSendFate slowChanCapacity)
    ∧ (GetProductsHandler processFailInput).slowFate
        = some SlowGoroutineFate.blockedOnSend
    ∧ (GetProductsHandler processFailInput).status = 500 :=
  c9_amended_abandoned_goroutine_blocks processFailInput rfl (by decide) rfl

/-- C10: when the fetch succeeds over a table with zero rows, the `products`
local variable is the never-appended nil slice, the handler still answers
HTTP 200, and the `products` field of the JSON body is `null`, not the
empty array. -/
theorem c10_empty_table_null_products (inp : HandlerInput)
    (hv : inp.validateDraw = false) (hp : inp.processDraw = false)
    (hd : inp.db.dbIsNil = false) (hq : inp.db.queryErr = none)
    (hrows : inp.db.rows = []) (hi : inp.db.iterErr = none) :
    (GetProductsHandler inp).status = 200
    ∧ ∃ j, (GetProductsHandler inp).body = Body.jsonBody j
        ∧ jsonField j "products" = some Json.null
        ∧ jsonField j "products" ≠ some (Json.arr []) := by
  have hok : fetchOk inp.db = true := by simp [fetchOk, hd, hq, hrows, hi, scanRows]
  have hf : (GetAllProducts inp.db).err = none := (fetch_err_iff inp.db).mpr hok
  rw [handler_success inp hv hf hp, fetch_ok_out inp.db hok]
  refine ⟨rfl, _, rfl, ?_, ?_⟩
  · rw [jsonField_products]
    simp [hrows, scanRows, encodeProducts]
  · rw [jsonField_products]
    simp [hrows, scanRows, encodeProducts]

/-- C10 witness at the healthy-but-empty database input. -/
theorem c10_witness :
    (GetProductsHandler emptyDbInput).status = 200
    ∧ ∃ j, (GetProductsHandler emptyDbInput).body = Body.jsonBody j
        ∧ jsonField j "products" = some Json.null
        ∧ jsonField j "products" ≠ some (Json.arr []) :=
  c10_empty_table_null_products emptyDbInput rfl rfl rfl rfl rfl rfl

/-- C5 amended-theorem witness, instantiated at the uninitialized-store
input where the double `End` occurs. -/
theorem c5_witness :
    countStart "GetProductsHandler" (GetProductsHandler uninitInput).events = 1
    ∧ countEnd "GetProductsHandler" (GetProductsHandler uninitInput).events = 1
    ∧ (GetProductsHandler uninitInput).events.getLast?
        = some (Ev.spanEnd "GetProductsHandler")
    ∧ countStart "validateRequest" (GetProductsHandler uninitInput).events = 1
    ∧ countEnd "validateRequest" (GetProductsHandler uninitInput).events = 1
    ∧ countStart "GetAllProducts" (GetProductsHandler uninitInput).events
        = (if uninitInput.validateDraw then 0 else 1)
    ∧ countEnd "GetAllProducts" (GetProductsHandler uninitInput).events
        = (if uninitInput.validateDraw then 0
           else if uninitInput.db.dbIsNil then 2 else 1)
    ∧ countStart "processData" (GetProductsHandler uninitInput).events
        = (if !uninitInput.validateDraw && fetchOk uninitInput.db then 1 else 0)
    ∧ countEnd "processData" (GetProductsHandler uninitInput).events
        = (if !uninitInput.validateDraw && fetchOk uninitInput.db then 1 else 0) :=
  c5_amended_span_end_counts uninitInput
